import Mathlib

/-!
Verification development for the MathNexus-3D graph visualizer
(`graph-visualizer.component.ts`).

The component compiles a user/AI-supplied formula string with
`new Function('x', 'y', 't', "try { return <formula>; } catch(e) { return 0; }")`
(line 181), evaluates it per vertex in `updateGraph` writing
`vertices[i+1] = isNaN(y) ? 0 : y` (line 266) into two independently stored
geometries (wireframe and translucent solid), and drives this from a
`requestAnimationFrame` loop whose time value is
`(Date.now() - this.startTime) / 1000 * this.timeScale` (line 277), with
`startTime = Date.now()` captured once at field initialization (line 155).

The embedding below models:
* JavaScript numeric values (`JSVal`): NaN, signed infinities, finite values
  (idealized as rationals; the claims under study do not depend on binary
  floating-point rounding), and `undefined` (produced by property access on
  values we do not model as objects).
* The JavaScript expression fragment exercised by the claims (`JSExpr`):
  numeric literals, arbitrary identifiers, property access, assignment
  expressions, unary minus and the four arithmetic operators.  The `Function`
  constructor accepts any text whose wrapped body parses, so the model's
  compiler accepts every `JSExpr`; text whose wrapped body is a syntax error
  (such as statement-only constructs like `while(true){}` in return position)
  is the `FormulaText.malformed` case and yields `compiledFunc = null`.
* Evaluation (`evalExpr`) over an environment of local parameter bindings
  (`x`, `y`, `t`) plus ambient global bindings; unknown identifiers throw
  (ReferenceError, modeled as `Except.error`), and sloppy-mode assignment to
  an unbound name creates a global binding (the side-effect channel).
* The component state and its operations: `updateGraph`, the `ngOnChanges`
  formula branch, the resize handler, and the animation step.
* The `requestAnimationFrame` scheduling discipline as a small transition
  system (`LoopState`, `lstep`) for the teardown claims.
-/

namespace MathNexus

/-- JavaScript numeric-ish runtime values as relevant to the component:
`undefined`, `NaN`, the two infinities (`inf true` is `+Infinity`), and
finite numbers idealized as rationals. -/
inductive JSVal where
  | undef : JSVal
  | nan : JSVal
  | inf : Bool → JSVal
  | fin : ℚ → JSVal
deriving DecidableEq, Repr

/-- The global `isNaN` used at line 266; it coerces, so `isNaN(undefined)`
is `true` while `isNaN(Infinity)` is `false`. -/
def jsIsNaN : JSVal → Bool
  | .nan => true
  | .undef => true
  | _ => false

/-- `Number.isFinite`-style finiteness predicate, used to state which values
are non-finite. -/
def jsIsFinite : JSVal → Bool
  | .fin _ => true
  | _ => false

/-- `ToNumber` coercion as it occurs inside arithmetic: `undefined` becomes
`NaN`, numbers are unchanged. -/
def toNum : JSVal → JSVal
  | .undef => .nan
  | v => v

/-- JavaScript unary minus. -/
def jneg (a : JSVal) : JSVal :=
  match toNum a with
  | .inf b => .inf (!b)
  | .fin q => .fin (-q)
  | _ => .nan

/-- JavaScript addition on numbers (IEEE rules: `∞ + (−∞)` is NaN, an
infinity absorbs finite addends, NaN propagates). -/
def jadd (a b : JSVal) : JSVal :=
  match toNum a, toNum b with
  | .inf s, .inf s' => if s = s' then .inf s else .nan
  | .inf s, .fin _ => .inf s
  | .fin _, .inf s => .inf s
  | .fin p, .fin q => .fin (p + q)
  | _, _ => .nan

/-- JavaScript subtraction, `a - b = a + (-b)`. -/
def jsub (a b : JSVal) : JSVal := jadd a (jneg b)

/-- JavaScript multiplication (IEEE rules: `∞ × 0` is NaN, signs multiply,
NaN propagates). -/
def jmul (a b : JSVal) : JSVal :=
  match toNum a, toNum b with
  | .inf s, .inf s' => .inf (s == s')
  | .inf s, .fin q => if q = 0 then .nan else .inf (s == decide (0 < q))
  | .fin q, .inf s => if q = 0 then .nan else .inf (s == decide (0 < q))
  | .fin p, .fin q => .fin (p * q)
  | _, _ => .nan

/-- JavaScript division (IEEE rules: `∞ / ∞` is NaN, a nonzero finite value
divided by zero is a signed infinity, `0 / 0` is NaN, a finite value divided
by an infinity is zero; the model identifies `-0` with `0`). -/
def jdiv (a b : JSVal) : JSVal :=
  match toNum a, toNum b with
  | .inf _, .inf _ => .nan
  | .inf s, .fin q => .inf (s == decide (0 ≤ q))
  | .fin _, .inf _ => .fin 0
  | .fin p, .fin q =>
      if q = 0 then (if p = 0 then .nan else .inf (decide (0 < p)))
      else .fin (p / q)
  | _, _ => .nan

/-- The fragment of JavaScript expression syntax exercised by the claims.
The `Function` constructor at line 181 places the formula text after
`return `, so exactly the texts parsing as an expression are accepted; that
includes arbitrary identifiers, property access and assignment expressions,
none of which the component filters out. -/
inductive JSExpr where
  | num : ℚ → JSExpr
  | ident : String → JSExpr
  | member : JSExpr → String → JSExpr
  | assign : String → JSExpr → JSExpr
  | neg : JSExpr → JSExpr
  | add : JSExpr → JSExpr → JSExpr
  | sub : JSExpr → JSExpr → JSExpr
  | mul : JSExpr → JSExpr → JSExpr
  | div : JSExpr → JSExpr → JSExpr
deriving DecidableEq, Repr

/-- Association-list update; leaves the list unchanged when the name is
absent. -/
def updateBinding : List (String × JSVal) → String → JSVal → List (String × JSVal)
  | [], _, _ => []
  | (m, w) :: rest, n, v =>
      if m = n then (m, v) :: rest else (m, w) :: updateBinding rest n v

/-- Whether a binding list contains a name. -/
def hasBinding (l : List (String × JSVal)) (n : String) : Bool :=
  l.any (fun p => p.1 == n)

/-- Lookup of a name in a binding list. -/
def lookupBinding (l : List (String × JSVal)) (n : String) : Option JSVal :=
  (l.find? (fun p => p.1 == n)).map (·.2)

/-- Scope of a call of the compiled function: the local parameter bindings
(`x`, `y`, `t`) and the ambient global bindings the non-strict function body
can read and write. -/
structure JSEnv where
  locals : List (String × JSVal)
  globals : List (String × JSVal)
deriving DecidableEq, Repr

/-- Evaluation of the expression fragment, threading the environment.
Identifier lookup tries the parameters, then the globals, and throws a
ReferenceError (`Except.error`) for unbound names.  Property access on the
primitive values we model yields `undefined`.  Sloppy-mode assignment
updates an existing binding or, when the name is unbound anywhere, creates
a new global binding — the scope-leakage side effect. -/
def evalExpr : JSExpr → JSEnv → Except Unit (JSVal × JSEnv)
  | .num q, env => .ok (.fin q, env)
  | .ident n, env =>
      match lookupBinding env.locals n with
      | some v => .ok (v, env)
      | none =>
        match lookupBinding env.globals n with
        | some v => .ok (v, env)
        | none => .error ()
  | .member o _, env => do
      let (_, env1) ← evalExpr o env
      pure (.undef, env1)
  | .assign n e, env => do
      let (v, env1) ← evalExpr e env
      if hasBinding env1.locals n then
        pure (v, { env1 with locals := updateBinding env1.locals n v })
      else if hasBinding env1.globals n then
        pure (v, { env1 with globals := updateBinding env1.globals n v })
      else
        pure (v, { env1 with globals := (n, v) :: env1.globals })
  | .neg e, env => do
      let (v, env1) ← evalExpr e env
      pure (jneg v, env1)
  | .add a b, env => do
      let (v, env1) ← evalExpr a env
      let (w, env2) ← evalExpr b env1
      pure (jadd v w, env2)
  | .sub a b, env => do
      let (v, env1) ← evalExpr a env
      let (w, env2) ← evalExpr b env1
      pure (jsub v w, env2)
  | .mul a b, env => do
      let (v, env1) ← evalExpr a env
      let (w, env2) ← evalExpr b env1
      pure (jmul v w, env2)
  | .div a b, env => do
      let (v, env1) ← evalExpr a env
      let (w, env2) ← evalExpr b env1
      pure (jdiv v w, env2)

/-- Parameter bindings of a call `compiledFunc(x, y, t)`; the second actual
argument at line 265 is the vertex's z coordinate, bound to parameter `y`. -/
def initialLocals (x y t : JSVal) : List (String × JSVal) :=
  [("x", x), ("y", y), ("t", t)]

/-- One call of the function body built at line 181:
`try { return <formula>; } catch (e) { return 0; }` — a thrown evaluation
error is caught inside the compiled function itself and `0` is returned. -/
def runBody (g : List (String × JSVal)) (x y t : JSVal) (e : JSExpr) : JSVal :=
  match evalExpr e ⟨initialLocals x y t, g⟩ with
  | .ok (v, _) => v
  | .error _ => .fin 0

/-- The numeric view of a compiled evaluator as `updateGraph` consumes it. -/
abbrev PureEval := JSVal → JSVal → JSVal → JSVal

/-- The evaluator produced for an accepted formula, run against an empty
ambient global environment (global writes it performs are the side effects
examined separately via `evalExpr`). -/
def compiledEval (e : JSExpr) : PureEval :=
  fun x y t => runBody [] x y t e

/-- A formula text as the `Function` constructor classifies it: either it
parses as a JavaScript expression (any `JSExpr`), or the wrapped body
`try { return <text>; } catch(e) { return 0; }` is a syntax error
(statement-only constructs such as `while(true){}`, unbalanced text, ...). -/
inductive FormulaText where
  | expr : JSExpr → FormulaText
  | malformed : FormulaText
deriving DecidableEq, Repr

/-- Lines 179–185: `new Function(...)` succeeds on any text that parses, and
on a syntax error the `catch` sets `compiledFunc = null`.  There is no
grammar restriction, no allow-list check, and no error value returned. -/
def compileFormula : FormulaText → Option PureEval
  | .malformed => none
  | .expr e => some (compiledEval e)

/-- One vertex of a mesh geometry: `x`/`z` are the Sample Grid coordinates
(written at geometry creation, never changed afterwards), `h` is the mutable
height slot `vertices[i+1]`. -/
structure Vertex where
  x : ℚ
  h : JSVal
  z : ℚ
deriving DecidableEq, Repr

/-- A mesh geometry's position attribute, as the ordered list of its
vertices. -/
abbrev Geometry := List Vertex

/-- The component fields the claims are about: `viewInit` records that
`ngAfterViewInit` has run (so `this.scene` and `this.wireframeMesh` exist —
the guards at lines 160 and 259), `compiledFunc` is the field of line 156,
`wire`/`solid` are the two geometries, and the camera/renderer numbers model
the fields touched by `onWindowResize`. -/
structure ComponentState where
  viewInit : Bool
  compiledFunc : Option PureEval
  wire : Geometry
  solid : Geometry
  isAnimated : Bool
  timeScale : ℚ
  startTime : ℚ
  fov : ℚ
  aspect : ℚ
  rendererW : ℚ
  rendererH : ℚ

/-- Line 266: `vertices[i + 1] = isNaN(y) ? 0 : y`. -/
def normalizeHeight (v : JSVal) : JSVal :=
  if jsIsNaN v then .fin 0 else v

/-- One iteration of the vertex loop of lines 264–267: the height slot
receives the normalized result of `compiledFunc(vertices[i], vertices[i+2], t)`;
the `x`/`z` slots are not written. -/
def updateVertex (f : PureEval) (t : ℚ) (v : Vertex) : Vertex :=
  { v with h := normalizeHeight (f (.fin v.x) (.fin v.z) (.fin t)) }

/-- The whole vertex loop over one geometry. -/
def updateGeometry (f : PureEval) (t : ℚ) (g : Geometry) : Geometry :=
  g.map (updateVertex f t)

/-- Lines 258–271 (`updateGraph`): a no-op before view initialization or
when `compiledFunc` is null; otherwise both geometries' heights are
rewritten from the same evaluator and the same `t`. -/
def updateGraph (st : ComponentState) (t : ℚ) : ComponentState :=
  if st.viewInit = false then st
  else
    match st.compiledFunc with
    | none => st
    | some f =>
        { st with
          wire := updateGeometry f t st.wire
          solid := updateGeometry f t st.solid }

/-- The `compileFormula()` call of line 162: the `compiledFunc` field is
overwritten with the new compile result in every case (the prior evaluator
is not retained on failure). -/
def compileFormulaStep (st : ComponentState) (text : FormulaText) : ComponentState :=
  { st with compiledFunc := compileFormula text }

/-- Lines 159–164: the `ngOnChanges` branch for a formula change — guarded
by `this.scene`, it recompiles, and re-evaluates immediately (at `t = 0`)
only when animation is disabled. -/
def ngOnChangesFormula (st : ComponentState) (text : FormulaText) : ComponentState :=
  if st.viewInit = false then st
  else
    let st1 := compileFormulaStep st text
    if st1.isAnimated = false then updateGraph st1 0 else st1

/-- An update of the `isAnimated` input binding (Angular writes the field;
the `ngOnChanges` body reacts only to `formula` and `color` changes). -/
def setAnimatedInput (st : ComponentState) (b : Bool) : ComponentState :=
  { st with isAnimated := b }

/-- Line 277: `t = (Date.now() - this.startTime) / 1000 * this.timeScale`. -/
def frameTime (st : ComponentState) (now : ℚ) : ℚ :=
  (now - st.startTime) / 1000 * st.timeScale

/-- The surface-relevant body of one animation frame (lines 276–279):
`updateGraph` runs at the elapsed-time value only when `isAnimated` is set.
Controls update and rendering have no effect on the modeled fields. -/
def animateStep (st : ComponentState) (now : ℚ) : ComponentState :=
  if st.isAnimated then updateGraph st (frameTime st now) else st

/-- Lines 288–294 (`onWindowResize`): writes `camera.aspect` from the
container's client size, refreshes the projection matrix (derived from
`fov` and `aspect`, neither the grid nor the heights), and resizes the
renderer.  `w`/`h` are the container's current client dimensions. -/
def onWindowResize (st : ComponentState) (w h : ℚ) : ComponentState :=
  { st with aspect := w / h, rendererW := w, rendererH := h }

/-- State of the `requestAnimationFrame` scheduling discipline for one
component: `nextId` is the host's next callback id (ids are positive, so
the truthiness test at line 297 coincides with presence), `pending` is the
currently scheduled animation callback if any, `frameId` is the component's
`animationFrameId` field, `resizeOn` records the window resize-listener
registration, and `destroyed` records that `ngOnDestroy` has run. -/
structure LoopState where
  nextId : Nat
  pending : Option Nat
  frameId : Option Nat
  resizeOn : Bool
  destroyed : Bool
deriving DecidableEq, Repr

/-- `requestAnimationFrame`: schedules a callback under a fresh positive id
and returns that id. -/
def raf (s : LoopState) : LoopState × Nat :=
  ({ s with nextId := s.nextId + 1, pending := some s.nextId }, s.nextId)

/-- `cancelAnimationFrame`: removes the callback with the given id if it is
still scheduled. -/
def caf (s : LoopState) (i : Nat) : LoopState :=
  if s.pending = some i then { s with pending := none } else s

/-- The externally driven events: the host fires the scheduled frame
callback, or Angular invokes `ngOnDestroy`. -/
inductive LEvent where
  | fire
  | destroy
deriving DecidableEq, Repr

/-- One event of the single-threaded host loop.  `fire` can only occur when
a callback is scheduled; it consumes the entry and runs `animate`
(lines 273–281), whose first statement reschedules and stores the new id.
`destroy` runs `ngOnDestroy` (lines 296–299): it cancels the stored id (ids
are positive, so the truthiness guard is exactly the presence test) and
removes the resize listener. -/
def lstep (s : LoopState) : LEvent → Option LoopState
  | .fire =>
      match s.pending with
      | none => none
      | some _ =>
          let p := raf { s with pending := none }
          some { p.1 with frameId := some p.2 }
  | .destroy =>
      let s1 :=
        match s.frameId with
        | some i => caf s i
        | none => s
      some { s1 with resizeOn := false, destroyed := true }

/-- The state right after `ngAfterViewInit` (lines 171–177): `animate()` is
called synchronously — its first statement schedules the first frame and
stores the id — and then the resize listener is registered. -/
def attach : LoopState :=
  let s0 : LoopState := ⟨1, none, none, false, false⟩
  let p := raf s0
  { p.1 with frameId := some p.2, resizeOn := true }

/-- Runs a sequence of events; a trace demanding an impossible event (firing
with nothing scheduled) is rejected. -/
def runFrom : LoopState → List LEvent → Option LoopState
  | s, [] => some s
  | s, e :: es =>
      match lstep s e with
      | none => none
      | some s1 => runFrom s1 es

/-- Inductive invariant of the loop: a scheduled callback's id is exactly
the stored `animationFrameId`, and once destroyed nothing is scheduled and
the resize listener is gone. -/
def loopInv (s : LoopState) : Prop :=
  (∀ i, s.pending = some i → s.frameId = some i)
  ∧ (s.destroyed = true → s.pending = none ∧ s.resizeOn = false)

/-- The formula `"x*y"` from the spec's example. -/
def exprXY : JSExpr := .mul (.ident "x") (.ident "y")

/-- The formula `"x*x - y*y"` from the spec's example. -/
def exprSaddle : JSExpr :=
  .sub (.mul (.ident "x") (.ident "x")) (.mul (.ident "y") (.ident "y"))

/-- The formula `"1/0"`, whose value is `+Infinity` everywhere. -/
def exprOneOverZero : JSExpr := .div (.num 1) (.num 0)

/-- The formula `"t"`: its surface height equals the frame time, making the
animation clock directly observable in the height buffer. -/
def exprT : JSExpr := .ident "t"

/-- The spec's malformed example `"while(true){}"`: the built body
`try { return while(true){}; } catch(e) { return 0; }` is a syntax error
(`while` cannot follow `return`), so the `Function` constructor throws. -/
def whileTrueText : FormulaText := .malformed

/-- A baseline post-`ngAfterViewInit` component state for the concrete
instances below. -/
def baseState : ComponentState where
  viewInit := true
  compiledFunc := none
  wire := []
  solid := []
  isAnimated := true
  timeScale := 1
  startTime := 0
  fov := 60
  aspect := 1
  rendererW := 800
  rendererH := 800

/-- A state rendering the prior valid formula `"x*y"` (height 6 at the
sample `(2, 3)`), with animation off. -/
def st2 : ComponentState :=
  { baseState with
    isAnimated := false
    compiledFunc := some (compiledEval exprXY)
    wire := [⟨2, .fin 6, 3⟩]
    solid := [⟨2, .fin 6, 3⟩] }

/-- A state whose active formula is `"x*x - y*y"`, sampled at `(2, 3)`. -/
def stSaddle : ComponentState :=
  { baseState with
    compiledFunc := some (compiledEval exprSaddle)
    wire := [⟨2, .fin 0, 3⟩]
    solid := [⟨2, .fin 0, 3⟩] }

/-- A state whose active formula is `"1/0"`. -/
def stInf : ComponentState :=
  { baseState with
    compiledFunc := some (compiledEval exprOneOverZero)
    wire := [⟨0, .fin 0, 0⟩]
    solid := [⟨0, .fin 0, 0⟩] }

/-- An animated state rendering the constant formula `"1"`. -/
def stC6 : ComponentState :=
  { baseState with
    compiledFunc := some (compiledEval (.num 1))
    wire := [⟨0, .fin 1, 0⟩]
    solid := [⟨0, .fin 1, 0⟩] }

/-- An animated state rendering the formula `"t"`, constructed at wall-clock
time 0 with unit time scale. -/
def stC8 : ComponentState :=
  { baseState with
    compiledFunc := some (compiledEval exprT)
    wire := [⟨0, .fin 0, 0⟩]
    solid := [⟨0, .fin 0, 0⟩] }

/-! ## Helper lemmas -/

theorem updateGeometry_heights (f : PureEval) (t : ℚ) (g : Geometry) :
    (updateGeometry f t g).map (·.h)
      = g.map (fun v => normalizeHeight (f (.fin v.x) (.fin v.z) (.fin t))) := by
  unfold updateGeometry
  rw [List.map_map]
  rfl

theorem updateGeometry_heights_via_xz (f : PureEval) (t : ℚ) (g : Geometry) :
    (updateGeometry f t g).map (·.h)
      = (g.map (fun v => (v.x, v.z))).map
          (fun p => normalizeHeight (f (.fin p.1) (.fin p.2) (.fin t))) := by
  unfold updateGeometry
  rw [List.map_map, List.map_map]
  rfl

theorem jsIsNaN_normalizeHeight (w : JSVal) : jsIsNaN (normalizeHeight w) = false := by
  cases w <;> rfl

theorem updateGraph_none (st : ComponentState) (t : ℚ) (h : st.compiledFunc = none) :
    updateGraph st t = st := by
  unfold updateGraph
  rw [h]
  split <;> rfl

theorem updateGraph_startTime (st : ComponentState) (t : ℚ) :
    (updateGraph st t).startTime = st.startTime := by
  unfold updateGraph
  split
  · rfl
  · split <;> rfl

theorem ngOnChangesFormula_startTime (st : ComponentState) (text : FormulaText) :
    (ngOnChangesFormula st text).startTime = st.startTime := by
  unfold ngOnChangesFormula
  split
  · rfl
  · dsimp only
    split
    · rw [updateGraph_startTime]
      rfl
    · rfl

theorem animateStep_startTime (st : ComponentState) (now : ℚ) :
    (animateStep st now).startTime = st.startTime := by
  unfold animateStep
  split
  · rw [updateGraph_startTime]
  · rfl

theorem attach_eq : attach = ⟨2, some 1, some 1, true, false⟩ := rfl

theorem loopInv_attach : loopInv attach := by
  rw [attach_eq]
  constructor
  · intro i h
    exact h
  · intro h
    exact absurd h (by decide)

theorem loopInv_step (s s' : LoopState) (e : LEvent) (hs : loopInv s)
    (hstep : lstep s e = some s') : loopInv s' := by
  cases e with
  | fire =>
      simp only [lstep] at hstep
      cases hp : s.pending with
      | none => rw [hp] at hstep; exact absurd hstep (by simp)
      | some j =>
          rw [hp] at hstep
          dsimp [raf] at hstep
          injection hstep with h1
          subst h1
          constructor
          · intro i h
            exact h
          · intro h
            exact absurd (hs.2 h).1 (by rw [hp]; simp)
  | destroy =>
      simp only [lstep] at hstep
      injection hstep with h1
      subst h1
      have hpend : (match s.frameId with
          | some i => caf s i
          | none => s).pending = none := by
        cases hp : s.pending with
        | none =>
            cases s.frameId with
            | none => exact hp
            | some i =>
                unfold caf
                rw [hp]
                split <;> simp_all
        | some j =>
            have hfj := hs.1 j hp
            rw [hfj]
            unfold caf
            rw [hp]
            simp
      constructor
      · intro i h
        rw [hpend] at h
        exact absurd h (by simp)
      · intro _
        exact ⟨hpend, rfl⟩

theorem runFrom_loopInv (evs : List LEvent) (s0 s : LoopState)
    (h0 : loopInv s0) (h : runFrom s0 evs = some s) : loopInv s := by
  induction evs generalizing s0 with
  | nil =>
      unfold runFrom at h
      injection h with h1
      subst h1
      exact h0
  | cons e es ih =>
      unfold runFrom at h
      cases hstep : lstep s0 e with
      | none => rw [hstep] at h; exact absurd h (by simp)
      | some s1 =>
          rw [hstep] at h
          exact ih s1 (loopInv_step s0 s1 e h0 hstep) h

/-! ## Claims -/

/-- C1 (code_bug): the spec requires `compile` to reject any identifier
outside `x`/`y`/`t` and the allow-list, any assignment, and any member
access, with no side effects or scope leakage reachable from the input
text.  The code's `compileFormula` (line 181) hands the text to the
`Function` constructor, which accepts every JavaScript expression: the
assignment expression `polluted = 42` is accepted and its evaluation writes
a binding into the global scope (side effect and scope leakage); member
access and arbitrary unknown identifiers are also accepted, and an
identifier bound in the ambient global scope is read by the evaluator. -/
theorem compileFormula_accepts_unrestricted_js :
    (compileFormula (.expr (.assign "polluted" (.num 42)))).isSome = true
    ∧ evalExpr (.assign "polluted" (.num 42))
        ⟨initialLocals (.fin 0) (.fin 0) (.fin 0), []⟩
        = .ok (.fin 42, ⟨initialLocals (.fin 0) (.fin 0) (.fin 0), [("polluted", .fin 42)]⟩)
    ∧ (compileFormula (.expr (.member (.ident "x") "foo"))).isSome = true
    ∧ (compileFormula (.expr (.ident "notInAllowList"))).isSome = true
    ∧ evalExpr (.ident "ambient")
        ⟨initialLocals (.fin 0) (.fin 0) (.fin 0), [("ambient", .fin 7)]⟩
        = .ok (.fin 7, ⟨initialLocals (.fin 0) (.fin 0) (.fin 0), [("ambient", .fin 7)]⟩) :=
  ⟨rfl, rfl, rfl, rfl, rfl⟩

/-- C2 counterexample: from a state rendering the prior valid formula
`"x*y"`, a malformed formula (the spec's `"while(true){}"`) does NOT leave
the prior evaluator in place — `compiledFunc` goes from present to null —
even though the rendered heights are unchanged. -/
theorem setFormula_malformed_discards_evaluator_cex :
    st2.compiledFunc.isSome = true
    ∧ (ngOnChangesFormula st2 whileTrueText).compiledFunc.isSome = false
    ∧ (ngOnChangesFormula st2 whileTrueText).wire.map (·.h) = [.fin 6]
    ∧ (ngOnChangesFormula st2 whileTrueText).solid.map (·.h) = [.fin 6] :=
  ⟨rfl, rfl, rfl, rfl⟩

/-- C2 (amended): a malformed formula silently sets the active evaluator to
null (the prior evaluator is discarded, and no error value is produced —
the catch block only assigns the field); the previously rendered surface is
nevertheless unchanged, both at the call and at every later update, because
`updateGraph` is a no-op while the evaluator is null, so the prior valid
surface (e.g. from `"x*y"`) continues to render. -/
theorem setFormula_malformed_silent_freeze (st : ComponentState)
    (hv : st.viewInit = true) :
    ngOnChangesFormula st .malformed = { st with compiledFunc := none }
    ∧ ∀ t, updateGraph { st with compiledFunc := none } t
        = { st with compiledFunc := none } := by
  have hupd : ∀ t, updateGraph { st with compiledFunc := none } t
      = { st with compiledFunc := none } :=
    fun t => updateGraph_none { st with compiledFunc := none } t rfl
  refine ⟨?_, hupd⟩
  unfold ngOnChangesFormula compileFormulaStep compileFormula
  rw [if_neg (show ¬(st.viewInit = false) by rw [hv]; decide)]
  dsimp only
  by_cases hA : st.isAnimated = false
  · rw [if_pos hA]
    exact hupd 0
  · rw [if_neg hA]

/-- C2 witness: the amended behavior at the concrete prior-`"x*y"` state. -/
theorem setFormula_malformed_silent_freeze_witness :
    ngOnChangesFormula st2 FormulaText.malformed = { st2 with compiledFunc := none }
    ∧ updateGraph { st2 with compiledFunc := none } 9
        = { st2 with compiledFunc := none } := by
  have h := setFormula_malformed_silent_freeze st2 rfl
  exact ⟨h.1, h.2 9⟩

/-- C3: after `updateGraph(t)`, each layer's height list equals the
NaN-normalized evaluator output at the vertex's `(x, z)` sample and the
given `t`; and the compiled `"x*x - y*y"` evaluator yields exactly `-5` at
the sample `(2, 3)` for every `t`. -/
theorem advance_heights_match_evaluator (f : PureEval) (st : ComponentState)
    (t : ℚ) (hv : st.viewInit = true) (hf : st.compiledFunc = some f) :
    ((updateGraph st t).wire.map (·.h)
        = st.wire.map (fun v => normalizeHeight (f (.fin v.x) (.fin v.z) (.fin t))))
    ∧ ((updateGraph st t).solid.map (·.h)
        = st.solid.map (fun v => normalizeHeight (f (.fin v.x) (.fin v.z) (.fin t))))
    ∧ ∀ t' : ℚ,
        normalizeHeight (compiledEval exprSaddle (.fin 2) (.fin 3) (.fin t')) = .fin (-5) := by
  refine ⟨?_, ?_, ?_⟩
  · unfold updateGraph
    rw [hv, hf]
    dsimp only
    exact updateGeometry_heights f t st.wire
  · unfold updateGraph
    rw [hv, hf]
    dsimp only
    exact updateGeometry_heights f t st.solid
  · intro t'
    show JSVal.fin ((2 : ℚ) * 2 + -((3 : ℚ) * 3)) = JSVal.fin (-5)
    norm_num

/-- C3 witness: on a concrete one-vertex grid at `(2, 3)` with the formula
`"x*x - y*y"`, `advance(7)` writes the height `-5`. -/
theorem advance_heights_match_evaluator_witness :
    (updateGraph stSaddle 7).wire.map (·.h) = [JSVal.fin (-5)] := by
  have h := advance_heights_match_evaluator (compiledEval exprSaddle) stSaddle 7 rfl rfl
  rw [h.1]
  show [normalizeHeight (compiledEval exprSaddle (.fin 2) (.fin 3) (.fin 7))]
      = [JSVal.fin (-5)]
  rw [h.2.2 7]

/-- C4 counterexample: the claim says every non-finite result, infinities
included, is replaced by 0 and no non-finite value is ever written; but for
the accepted formula `"1/0"`, whose value is `+Infinity`, `updateGraph`
writes `+Infinity` into the height buffer, because line 266 only tests
`isNaN` and `isNaN(Infinity)` is false. -/
theorem advance_writes_infinity_cex :
    (updateGraph stInf 0).wire.map (·.h) = [JSVal.inf true]
    ∧ jsIsFinite (JSVal.inf true) = false :=
  ⟨rfl, rfl⟩

/-- C4 (amended): during `updateGraph` exactly the NaN results (and
`undefined`, which the global `isNaN` coerces to NaN) are replaced by 0
before being written — a NaN is never written to a height buffer — while
infinite results pass through unchanged; evaluation itself is total, so
nothing is thrown past the component boundary. -/
theorem advance_replaces_only_nan (f : PureEval) (st : ComponentState) (t : ℚ)
    (hv : st.viewInit = true) (hf : st.compiledFunc = some f) :
    (∀ v ∈ (updateGraph st t).wire, jsIsNaN v.h = false)
    ∧ (∀ v ∈ (updateGraph st t).solid, jsIsNaN v.h = false)
    ∧ (∀ w : JSVal, jsIsNaN w = true → normalizeHeight w = .fin 0)
    ∧ (∀ w : JSVal, jsIsNaN w = false → normalizeHeight w = w) := by
  have hmem : ∀ (g : Geometry) (v : Vertex),
      v ∈ updateGeometry f t g → jsIsNaN v.h = false := by
    intro g v hvmem
    unfold updateGeometry at hvmem
    obtain ⟨u, _, rfl⟩ := List.mem_map.mp hvmem
    exact jsIsNaN_normalizeHeight _
  refine ⟨?_, ?_, ?_, ?_⟩
  · intro v hvmem
    refine hmem st.wire v ?_
    unfold updateGraph at hvmem
    rw [hv, hf] at hvmem
    exact hvmem
  · intro v hvmem
    refine hmem st.solid v ?_
    unfold updateGraph at hvmem
    rw [hv, hf] at hvmem
    exact hvmem
  · intro w hw
    simp [normalizeHeight, hw]
  · intro w hw
    simp [normalizeHeight, hw]

/-- C4 witness: at the concrete `"1/0"` state no written height is NaN, and
`+Infinity` is indeed untouched by the normalization. -/
theorem advance_replaces_only_nan_witness :
    (∀ v ∈ (updateGraph stInf 0).wire, jsIsNaN v.h = false)
    ∧ normalizeHeight (JSVal.inf true) = JSVal.inf true := by
  have h := advance_replaces_only_nan (compiledEval exprOneOverZero) stInf 0 rfl rfl
  exact ⟨h.1, h.2.2.2 (JSVal.inf true) rfl⟩

/-- C5: the two layers' height buffers are equal at every vertex after
every update — both after `updateGraph` (which rewrites both geometries
from the same evaluator and the same `t` within the call, so neither layer
is left stale relative to the other) and after any `ngOnChanges` formula
change — given that the layers share the grid's `(x, z)` topology (they are
created as clones) and were equal before. -/
theorem update_keeps_layers_equal (st : ComponentState) (t : ℚ)
    (text : FormulaText)
    (hxz : st.wire.map (fun v => (v.x, v.z)) = st.solid.map (fun v => (v.x, v.z)))
    (hh : st.wire.map (·.h) = st.solid.map (·.h)) :
    ((updateGraph st t).wire.map (·.h) = (updateGraph st t).solid.map (·.h))
    ∧ ((ngOnChangesFormula st text).wire.map (·.h)
        = (ngOnChangesFormula st text).solid.map (·.h)) := by
  have guard : ∀ (st' : ComponentState) (t' : ℚ),
      st'.wire = st.wire → st'.solid = st.solid →
      (updateGraph st' t').wire.map (·.h) = (updateGraph st' t').solid.map (·.h) := by
    intro st' t' hw hs
    unfold updateGraph
    split
    · rw [hw, hs]; exact hh
    · split
      · rw [hw, hs]; exact hh
      · dsimp only
        rw [hw, hs, updateGeometry_heights_via_xz, updateGeometry_heights_via_xz, hxz]
  constructor
  · exact guard st t rfl rfl
  · unfold ngOnChangesFormula
    split
    · exact hh
    · dsimp only
      split
      · exact guard _ 0 rfl rfl
      · exact hh

/-- C5 witness: concrete synchronized layers after an update of the
`"x*x - y*y"` state. -/
theorem update_keeps_layers_equal_witness :
    (updateGraph stSaddle 7).wire.map (·.h) = (updateGraph stSaddle 7).solid.map (·.h) :=
  (update_keeps_layers_equal stSaddle 7 (.expr exprXY) rfl rfl).1

/-- C6 counterexample: with animation enabled, a successful formula change
(from the constant `"1"` to the constant `"2"`) does NOT immediately
re-evaluate the surface: the heights still read 1 after `ngOnChanges`
returns, although the new evaluator yields 2 — the re-evaluation only
happens in the next animation frame. -/
theorem setFormula_animated_no_reeval_cex :
    (ngOnChangesFormula stC6 (.expr (.num 2))).wire.map (·.h) = [JSVal.fin 1]
    ∧ normalizeHeight (compiledEval (.num 2) (.fin 0) (.fin 0) (.fin 0)) = JSVal.fin 2
    ∧ JSVal.fin 1 ≠ JSVal.fin 2 := by
  refine ⟨rfl, rfl, ?_⟩
  intro h
  injection h with h1
  exact absurd h1 (by norm_num)

/-- C6 (amended): a successful formula change always replaces the active
evaluator; it re-evaluates the surface immediately only when animation is
disabled, and then at `t = 0` (the value every non-animated update uses)
rather than at an arbitrary last-used time; when animation is enabled both
geometries are left untouched until the next animation frame. -/
theorem setFormula_success_reeval (st : ComponentState) (e : JSExpr)
    (hv : st.viewInit = true) :
    (ngOnChangesFormula st (.expr e)).compiledFunc = some (compiledEval e)
    ∧ (st.isAnimated = false →
        (ngOnChangesFormula st (.expr e)).wire
          = updateGeometry (compiledEval e) 0 st.wire
        ∧ (ngOnChangesFormula st (.expr e)).solid
          = updateGeometry (compiledEval e) 0 st.solid)
    ∧ (st.isAnimated = true →
        (ngOnChangesFormula st (.expr e)).wire = st.wire
        ∧ (ngOnChangesFormula st (.expr e)).solid = st.solid) := by
  have hng : ngOnChangesFormula st (.expr e)
      = if st.isAnimated = false
        then updateGraph { st with compiledFunc := some (compiledEval e) } 0
        else { st with compiledFunc := some (compiledEval e) } := by
    unfold ngOnChangesFormula compileFormulaStep compileFormula
    rw [hv, if_neg (by decide : ¬(true = false))]
  have hupd : updateGraph { st with compiledFunc := some (compiledEval e) } 0
      = { st with
          compiledFunc := some (compiledEval e)
          wire := updateGeometry (compiledEval e) 0 st.wire
          solid := updateGeometry (compiledEval e) 0 st.solid } := by
    unfold updateGraph
    dsimp only
    rw [hv, if_neg (by decide : ¬(true = false))]
  rw [hng]
  by_cases hA : st.isAnimated = false
  · rw [if_pos hA, hupd]
    refine ⟨rfl, fun _ => ⟨rfl, rfl⟩, fun hA2 => absurd hA2 (by rw [hA]; decide)⟩
  · rw [if_neg hA]
    exact ⟨rfl, fun hA2 => absurd hA2 hA, fun _ => ⟨rfl, rfl⟩⟩

/-- C6 witness: the amended behavior at the concrete animated state. -/
theorem setFormula_success_reeval_witness :
    (ngOnChangesFormula stC6 (.expr (.num 2))).compiledFunc
      = some (compiledEval (.num 2))
    ∧ (ngOnChangesFormula stC6 (.expr (.num 2))).wire = stC6.wire := by
  have h := setFormula_success_reeval stC6 (.num 2) rfl
  exact ⟨h.1, (h.2.2 rfl).1⟩

/-- C7: `onWindowResize` updates only the camera aspect ratio (to the new
width/height ratio) and the renderer's pixel size; the vertical field of
view, both geometries (grid coordinates and heights alike), and the active
evaluator are untouched. -/
theorem resize_updates_only_aspect_and_size (st : ComponentState) (w h : ℚ) :
    (onWindowResize st w h).fov = st.fov
    ∧ (onWindowResize st w h).aspect = w / h
    ∧ (onWindowResize st w h).rendererW = w
    ∧ (onWindowResize st w h).rendererH = h
    ∧ (onWindowResize st w h).wire = st.wire
    ∧ (onWindowResize st w h).solid = st.solid
    ∧ (onWindowResize st w h).compiledFunc = st.compiledFunc :=
  ⟨rfl, rfl, rfl, rfl, rfl, rfl, rfl⟩

/-- C8 counterexample: the surface time does not restart from 0.  With the
formula `"t"` (height = clock), a component constructed at wall-clock 0
whose animation is stopped and then restarted renders, at wall-clock 10000,
the height 10 — the elapsed time since construction — not 0: `startTime`
(line 155) is captured once at construction and no code path re-captures
it. -/
theorem restart_continues_elapsed_time_cex :
    (animateStep (setAnimatedInput (setAnimatedInput stC8 false) true) 10000).wire.map (·.h)
      = [JSVal.fin 10]
    ∧ frameTime stC8 10000 = 10
    ∧ (10 : ℚ) ≠ 0 := by
  refine ⟨?_, ?_, by norm_num⟩
  · show [JSVal.fin (((10000 : ℚ) - 0) / 1000 * 1)] = [JSVal.fin 10]
    norm_num
  · show ((10000 : ℚ) - 0) / 1000 * 1 = 10
    norm_num

/-- C8 (amended): the time origin is fixed at construction — no modeled
operation (input changes, updates, frames, resize) ever changes
`startTime`, toggling the animation off and on leaves the frame-time
computation unchanged, and at any wall-clock instant other than the origin
the frame time is nonzero (for a nonzero time scale), so a restarted
animation continues from the previously elapsed time rather than from 0. -/
theorem time_origin_fixed_at_construction (st : ComponentState) (b : Bool)
    (now t w h : ℚ) (text : FormulaText)
    (hts : st.timeScale ≠ 0) (hnow : now ≠ st.startTime) :
    (setAnimatedInput st b).startTime = st.startTime
    ∧ (animateStep st now).startTime = st.startTime
    ∧ (updateGraph st t).startTime = st.startTime
    ∧ (ngOnChangesFormula st text).startTime = st.startTime
    ∧ (onWindowResize st w h).startTime = st.startTime
    ∧ frameTime (setAnimatedInput st b) now = frameTime st now
    ∧ frameTime st now ≠ 0 := by
  refine ⟨rfl, animateStep_startTime st now, updateGraph_startTime st t,
    ngOnChangesFormula_startTime st text, rfl, rfl, ?_⟩
  unfold frameTime
  exact mul_ne_zero (div_ne_zero (sub_ne_zero.mpr hnow) (by norm_num)) hts

/-- C8 witness: the amended statement at the concrete state. -/
theorem time_origin_fixed_at_construction_witness :
    (animateStep stC8 10000).startTime = stC8.startTime
    ∧ frameTime stC8 10000 ≠ 0 := by
  have h := time_origin_fixed_at_construction stC8 true 10000 0 800 600
    FormulaText.malformed (by norm_num [stC8, baseState]) (by norm_num [stC8, baseState])
  exact ⟨h.2.1, h.2.2.2.2.2.2⟩

/-- C9: in every event trace from `attach`, once `ngOnDestroy` has run no
further animation step can execute (the fire event is disabled: nothing is
scheduled) and the window resize listener is unregistered.  The step that
rescheduled last before destruction is the "in flight" step: its reschedule
is exactly the pending entry that `ngOnDestroy` cancels via the stored
`animationFrameId`. -/
theorem detach_suppresses_future_steps (evs : List LEvent) (s : LoopState)
    (hrun : runFrom attach evs = some s) (hdes : s.destroyed = true) :
    lstep s .fire = none ∧ s.pending = none ∧ s.resizeOn = false := by
  have hinv := runFrom_loopInv evs attach s loopInv_attach hrun
  obtain ⟨hp, hr⟩ := hinv.2 hdes
  refine ⟨?_, hp, hr⟩
  simp only [lstep]
  rw [hp]

/-- C9 witness: after two frames and a destroy, the reached state fires no
further step and has no listener. -/
theorem detach_suppresses_future_steps_witness :
    lstep ⟨4, none, some 3, false, true⟩ LEvent.fire = none
    ∧ (⟨4, none, some 3, false, true⟩ : LoopState).resizeOn = false := by
  have h := detach_suppresses_future_steps [.fire, .fire, .destroy]
    ⟨4, none, some 3, false, true⟩ (by decide) rfl
  exact ⟨h.1, h.2.2⟩

/-- C10: a runtime error thrown while evaluating the compiled expression
(e.g. an unbound identifier that compiled successfully) is caught by the
`try`/`catch` inside the compiled function itself, which returns 0; hence
the vertex loop observes the plain value 0 and writes height 0 for that
vertex — the recovery happens inside the evaluator, not at the
`updateGraph` boundary (whose NaN-normalization leaves the 0 as is). -/
theorem evaluator_catches_runtime_errors (e : JSExpr)
    (g : List (String × JSVal)) (x y t : JSVal) (tq : ℚ) (v : Vertex)
    (herr : evalExpr e ⟨initialLocals x y t, g⟩ = .error ())
    (herrv : evalExpr e ⟨initialLocals (.fin v.x) (.fin v.z) (.fin tq), []⟩ = .error ()) :
    runBody g x y t e = .fin 0
    ∧ (updateVertex (compiledEval e) tq v).h = .fin 0 := by
  constructor
  · unfold runBody
    rw [herr]
  · show normalizeHeight (runBody [] (.fin v.x) (.fin v.z) (.fin tq) e) = .fin 0
    unfold runBody
    rw [herrv]
    rfl

/-- C10 witness: the formula `"zeta"` compiles, throws a ReferenceError at
call time, and the caught error yields the value 0 and the written height
0. -/
theorem evaluator_catches_runtime_errors_witness :
    runBody [] (.fin 1) (.fin 2) (.fin 3) (.ident "zeta") = JSVal.fin 0
    ∧ (updateVertex (compiledEval (.ident "zeta")) 5 ⟨1, .fin 9, 2⟩).h = JSVal.fin 0 := by
  have h := evaluator_catches_runtime_errors (.ident "zeta") [] (.fin 1) (.fin 2) (.fin 3)
    5 ⟨1, .fin 9, 2⟩ rfl rfl
  exact ⟨h.1, h.2⟩

end MathNexus
